import Mathlib

/-!
Shallow embedding of the dynamic-array container `vector<T>` from
`src/vector.hpp` (with one draft routine from `src/unnamed/part_000`).

The container state is modelled as a record holding the contents of the
heap allocation (`m_buffer`, a list whose length is the number of slots
the last `std::make_unique<T[]>` call produced), the logical element
count `m_vec_size` and the recorded `m_vec_capacity`.  The two standard
algorithms the code relies on, `std::copy` and raw slot assignment, are
modelled by `stdCopy` and `setSlot`; both return `none` exactly when the
C++ call would read or write outside the allocation it is given, i.e.
when the original program has undefined behaviour.  `std::make_unique<T[]>(n)`
value-constructs all `n` objects, hence a fresh allocation is
`List.replicate n default`.
-/

/-- Model of `std::copy(src, src + k, dst)`: the first `k` elements of the
source allocation are written over the front of the destination allocation.
Reading past `src` or writing past `dst` is undefined behaviour: `none`. -/
def stdCopy {α : Type} (src : List α) (k : Nat) (dst : List α) : Option (List α) :=
  if k ≤ src.length ∧ k ≤ dst.length then some (src.take k ++ dst.drop k) else none

/-- Model of the raw slot write `buf[i] = a`: `none` when `i` is outside the
allocation (undefined behaviour in the C++ source). -/
def setSlot {α : Type} (l : List α) (i : Nat) (a : α) : Option (List α) :=
  if i < l.length then some (l.set i a) else none

/-- The state of `vector<T>` from `src/vector.hpp`: the contents of the owned
allocation, the element count member and the capacity member.  A null buffer
(`m_buffer = nullptr`) is the empty allocation `[]`. -/
structure vector (α : Type) where
  m_buffer : List α
  m_vec_size : Nat
  m_vec_capacity : Nat
deriving DecidableEq

namespace vector

variable {α : Type}

/-- `size()` member function. -/
def size (v : vector α) : Nat := v.m_vec_size

/-- `capacity()` member function. -/
def capacity (v : vector α) : Nat := v.m_vec_capacity

/-- `empty()` member function. -/
def empty (v : vector α) : Bool := v.m_vec_size == 0

/-- `reserve(n)` (src/vector.hpp lines 282-296): unconditionally builds a fresh
allocation of `n` slots (`std::make_unique<T[]>(n)` value-constructs them),
copies the first `m_vec_size` elements of the old allocation into it with
`std::copy`, sets `m_vec_capacity = n` and adopts the new allocation.  There is
no `n <= capacity` early return in the source.  The copy is undefined behaviour
(`none`) when `m_vec_size` exceeds either allocation. -/
def reserve [Inhabited α] (v : vector α) (n : Nat) : Option (vector α) :=
  (stdCopy v.m_buffer v.m_vec_size (List.replicate n default)).map
    (fun b => { m_buffer := b, m_vec_size := v.m_vec_size, m_vec_capacity := n })

/-- `resize(n)` (src/vector.hpp lines 152-156): simply calls `reserve(n)`. -/
def resize [Inhabited α] (v : vector α) (n : Nat) : Option (vector α) :=
  reserve v n

/-- `push_back(val)` (src/vector.hpp lines 157-171): when `size >= capacity`
calls `reserve(capacity + 1)`, then executes `m_buffer[m_vec_size++] = T(val)`. -/
def push_back [Inhabited α] (v : vector α) (val : α) : Option (vector α) :=
  (if v.m_vec_size ≥ v.m_vec_capacity then reserve v (v.m_vec_capacity + 1) else some v).bind
    (fun v1 => (setSlot v1.m_buffer v1.m_vec_size val).map
      (fun b => { m_buffer := b, m_vec_size := v1.m_vec_size + 1,
                  m_vec_capacity := v1.m_vec_capacity }))

/-- `pop_back()` (src/vector.hpp lines 173-180).  The whole statement
`m_buffer[m_vec_size--].~T();` sits under `if constexpr(!std::is_trivially_destructible<T>::value)`,
so for a trivially destructible element type nothing at all happens (the
decrement is discarded together with the destructor call). -/
def pop_back (trivially_destructible : Bool) (v : vector α) : vector α :=
  if v.m_vec_size = 0 then v
  else if trivially_destructible then v
  else { v with m_vec_size := v.m_vec_size - 1 }

/-- The index of the slot on which `pop_back()` invokes `~T()`, when it invokes
it at all.  The source uses the post-decrement `m_buffer[m_vec_size--]`, so the
index read is the old value of `m_vec_size`. -/
def pop_back_destructed_slot (trivially_destructible : Bool) (v : vector α) : Option Nat :=
  if v.m_vec_size = 0 then none
  else if trivially_destructible then none
  else some v.m_vec_size

/-- `pop_back()` from the draft `src/unnamed/part_000` lines 110-113: its whole
body is `m_buffer[0] = 1;` (a sentinel write; the element type is numeric).
The write is undefined behaviour when the allocation is empty. -/
def pop_back_draft (v : vector Nat) : Option (vector Nat) :=
  (setSlot v.m_buffer 0 1).map (fun b => { v with m_buffer := b })

/-- `at(n)` (src/vector.hpp lines 220-226): throws `std::out_of_range` when
`n > size()` (note: strictly greater), otherwise returns `m_buffer[n]`.  The
returned read is modelled with `List.get?` so that a read past the allocation
(undefined behaviour) is `none` rather than a value. -/
def atIdx (v : vector α) (n : Nat) : Except String (Option α) :=
  if n > v.m_vec_size then Except.error "Vector element position is out of bounds"
  else Except.ok (v.m_buffer.get? n)

/-- `assign(il)` for an initializer list (src/vector.hpp lines 267-276):
reallocates to `il.size()` slots, copies the list in, and sets both
`m_vec_size` and `m_vec_capacity` to `il.size()`.  The previous buffer,
size and capacity are discarded entirely. -/
def assign [Inhabited α] (v : vector α) (il : List α) : Option (vector α) :=
  (stdCopy il il.length (List.replicate il.length default)).map
    (fun b => { m_buffer := b, m_vec_size := il.length, m_vec_capacity := il.length })

/-- `clear()` (src/vector.hpp lines 324-332): early return when empty;
otherwise destructs each live element in place (a value-level no-op on the
slots) and sets `m_vec_size = 0`.  No reallocation is performed, so the
buffer and `m_vec_capacity` are untouched. -/
def clear (v : vector α) : vector α :=
  if v.m_vec_size = 0 then v else { v with m_vec_size := 0 }

/-- Move constructor `vector(vector<T>&&)` (src/vector.hpp lines 92-102).
`std::move` applied to the `std::size_t` members merely copies them, so the
source keeps its `m_vec_size` and `m_vec_capacity`; only the `unique_ptr`
buffer is transferred, leaving the source buffer null (`[]`).  Returns
(destination, source after the move). -/
def moveCtor (v : vector α) : vector α × vector α :=
  ({ m_buffer := v.m_buffer, m_vec_size := v.m_vec_size, m_vec_capacity := v.m_vec_capacity },
   { m_buffer := [], m_vec_size := v.m_vec_size, m_vec_capacity := v.m_vec_capacity })

/-- `operator==` (src/vector.hpp lines 338-342): `std::equal(lhs.begin(),
lhs.end(), rhs.begin())`, the three-iterator overload, which compares exactly
`lhs.size()` positions and never consults `rhs.size()`.  It reads the first
`lhs.size()` slots of both allocations; reading past either allocation is
undefined behaviour (`none`). -/
def equalOp [DecidableEq α] (lhs rhs : vector α) : Option Bool :=
  if lhs.m_vec_size ≤ lhs.m_buffer.length ∧ lhs.m_vec_size ≤ rhs.m_buffer.length then
    some (decide (lhs.m_buffer.take lhs.m_vec_size = rhs.m_buffer.take lhs.m_vec_size))
  else none

end vector

/-!
Address-level refinement of the same class, used for the iterator claims:
`iterator` is `T*`, so an iterator is a raw address (in units of `sizeof(T)`),
and the allocation carries the address `base` at which it lives.  `begin()` is
`base`, `end()` is `base + m_vec_size`, and `get_position(it)` is the pointer
difference `it - m_buffer.get()`, i.e. `it - base` of the current allocation.
-/

/-- The buffer contents after `std::move_backward(first, last, last + 1)`
followed by `*first = val`, expressed on slot indices: slots `[i, k)` move one
slot later and `val` is written at slot `i`. -/
def shiftUpAndSet {α : Type} (l : List α) (i k : Nat) (val : α) : List α :=
  l.take i ++ [val] ++ (l.drop i).take (k - i) ++ l.drop (k + 1)

/-- `vector<T>` together with the address at which its current allocation
lives.  `std::make_unique` places each fresh allocation at a fresh address. -/
structure vectorMem (α : Type) where
  m_buffer : List α
  base : Int
  m_vec_size : Nat
  m_vec_capacity : Nat
deriving DecidableEq

namespace vectorMem

variable {α : Type}

/-- `reserve(n)` at the address level: same as `vector.reserve`, with the
fresh allocation living at `newBase` (the address `std::make_unique` returns,
necessarily distinct from the still-live old allocation). -/
def reserve [Inhabited α] (v : vectorMem α) (n : Nat) (newBase : Int) : Option (vectorMem α) :=
  (stdCopy v.m_buffer v.m_vec_size (List.replicate n default)).map
    (fun b => { m_buffer := b, base := newBase, m_vec_size := v.m_vec_size,
                m_vec_capacity := n })

/-- `insert(pos, val)` (src/vector.hpp lines 232-244).  When `size >= capacity`
it first calls `reserve(capacity + 1)`, which frees the old allocation and
adopts a fresh one at `newBase` — but `pos` is NOT recomputed.  The code then
takes `it = &m_buffer[get_position(pos)]` where `get_position(pos) = pos -
m_buffer.get()` is evaluated against the CURRENT allocation, runs
`std::move_backward(pos, end(), end() + 1)` and assigns `*it = T(val)`.
These steps have a defined meaning only when `pos` is a valid insert position
of the current allocation: concretely `0 <= pos - base`,
`pos - base <= m_vec_size`, and the shifted range `end() + 1` stays inside the
allocation (`m_vec_size < m_vec_capacity`); otherwise the pointer arithmetic
and the moves touch freed or out-of-range memory — undefined behaviour,
`none`. -/
def insert [Inhabited α] (v : vectorMem α) (pos : Int) (val : α) (newBase : Int) :
    Option (vectorMem α) :=
  (if v.m_vec_size ≥ v.m_vec_capacity
    then vectorMem.reserve v (v.m_vec_capacity + 1) newBase
    else some v).bind
    (fun v1 =>
      let idx : Int := pos - v1.base
      if 0 ≤ idx ∧ idx.toNat ≤ v1.m_vec_size ∧ v1.m_vec_size < v1.m_vec_capacity then
        some { v1 with
                m_buffer := shiftUpAndSet v1.m_buffer idx.toNat v1.m_vec_size val,
                m_vec_size := v1.m_vec_size + 1 }
      else none)

end vectorMem

/-!
Claim theorems.
-/

/-- C1: the claim says growth on overflow is multiplicative, new capacity =
max(1, capacity * g) for a fixed g > 1, never additive-by-one.  The code calls
`reserve(capacity + 1)` at every overflow: three `push_back` calls from a
default-constructed vector produce the capacity trace 1, 2, 3, and no fixed
rational factor g > 1 satisfies both max 1 (1 * g) = 2 and max 1 (2 * g) = 3.
So the growth policy is additive-by-one, refuting the claim. -/
theorem growth_additive_not_multiplicative_bug :
    (vector.push_back (⟨[], 0, 0⟩ : vector Nat) 1).map vector.capacity = some 1
    ∧ ((vector.push_back (⟨[], 0, 0⟩ : vector Nat) 1).bind
        (fun v => vector.push_back v 2)).map vector.capacity = some 2
    ∧ (((vector.push_back (⟨[], 0, 0⟩ : vector Nat) 1).bind
        (fun v => vector.push_back v 2)).bind
        (fun v => vector.push_back v 3)) = some ⟨[1, 2, 3], 3, 3⟩
    ∧ ¬ ∃ g : ℚ, 1 < g ∧ max 1 ((1 : ℚ) * g) = 2 ∧ max 1 ((2 : ℚ) * g) = 3 := by
  refine ⟨rfl, rfl, rfl, ?_⟩
  rintro ⟨g, hg, h1, h2⟩
  rw [one_mul, max_eq_right hg.le] at h1
  subst h1
  rw [max_eq_right (by norm_num : (1 : ℚ) ≤ 2 * 2)] at h2
  norm_num at h2

/-- C2: the claim says `reserve(n)` is a no-op when `n <= capacity`.  On a
container built by `vector(5)` (capacity 5, size 0), `reserve(3)` reallocates
and sets the capacity to 3, not leaving it at 5: the source has no
`n <= capacity` early return. -/
theorem reserve_not_noop_bug :
    (vector.reserve (⟨List.replicate 5 0, 0, 5⟩ : vector Nat) 3).map vector.capacity = some 3
    ∧ vector.capacity (⟨List.replicate 5 0, 0, 5⟩ : vector Nat) = 5 :=
  ⟨rfl, rfl⟩

/-- C3: the claim says a moved-from source is left with size 0 and capacity 0
and that a later `push_back` on it works.  Moving from a vector holding [7]
transfers the buffer but leaves the size and capacity members at 1 (std::move
of a std::size_t only copies it), and the subsequent `push_back` is undefined
behaviour: its internal `reserve(2)` copies 1 element out of the now-null
buffer. -/
theorem move_source_not_emptied_bug :
    vector.moveCtor (⟨[7], 1, 1⟩ : vector Nat) = (⟨[7], 1, 1⟩, ⟨[], 1, 1⟩)
    ∧ vector.size (vector.moveCtor (⟨[7], 1, 1⟩ : vector Nat)).2 = 1
    ∧ vector.capacity (vector.moveCtor (⟨[7], 1, 1⟩ : vector Nat)).2 = 1
    ∧ vector.push_back (vector.moveCtor (⟨[7], 1, 1⟩ : vector Nat)).2 9 = none :=
  ⟨rfl, rfl, rfl, rfl⟩

/-- C4: the claim says `pop_back` on a non-empty container destructs the
element at slot size - 1 and decrements size by one for every element type,
writing no sentinel values.  On [5, 6, 7] (size 3): for a trivially
destructible element type the size stays 3 (the decrement sits inside the
discarded `if constexpr` branch); for a non-trivially destructible type the
post-decrement destructs slot 3, not slot 2; and the part_000 draft writes the
sentinel value 1 into slot 0. -/
theorem pop_back_bug :
    vector.pop_back true (⟨[5, 6, 7], 3, 3⟩ : vector Nat) = ⟨[5, 6, 7], 3, 3⟩
    ∧ vector.pop_back_destructed_slot false (⟨[5, 6, 7], 3, 3⟩ : vector Nat) = some 3
    ∧ vector.pop_back_draft (⟨[5, 6, 7], 3, 3⟩ : vector Nat) = some ⟨[1, 6, 7], 3, 3⟩ :=
  ⟨rfl, rfl, rfl⟩

/-- C5: the claim says `at(i)` signals out-of-range exactly when i >= size.
On the container [5, 6, 7] the bounds check is `n > size`, so `at(3)` does not
signal and instead reads slot 3, one past the allocation (undefined
behaviour), even though 3 >= size; `at(5)` signals and `at(1)` returns 6 as
the claim states. -/
theorem at_off_by_one_bug :
    vector.atIdx (⟨[5, 6, 7], 3, 3⟩ : vector Nat) 3 = Except.ok none
    ∧ vector.atIdx (⟨[5, 6, 7], 3, 3⟩ : vector Nat) 5
        = Except.error "Vector element position is out of bounds"
    ∧ vector.atIdx (⟨[5, 6, 7], 3, 3⟩ : vector Nat) 1 = Except.ok (some 6) :=
  ⟨rfl, rfl, rfl⟩

/-- C6: the claim says `insert(begin(), x)` works even when it triggers a
reallocation, the insertion point being recomputed by offset.  On a full
one-element container [1] whose allocation lives at address 100, with the
fresh allocation at the disjoint address 200, `insert(begin(), 9)` first
reallocates and then evaluates `get_position(pos)` and `move_backward(pos,
...)` through the stale pre-reallocation pointer 100, which no longer points
into the live allocation: undefined behaviour (none), not the claimed result
[9, 1].  Without a reallocation (capacity 2) the same call does shift the
contents and place 9 at index 0. -/
theorem insert_stale_pointer_bug :
    vectorMem.insert (⟨[1], 100, 1, 1⟩ : vectorMem Nat) 100 9 200 = none
    ∧ vectorMem.insert (⟨[1, 0], 100, 1, 2⟩ : vectorMem Nat) 100 9 200
        = some ⟨[9, 1], 100, 2, 2⟩ :=
  ⟨rfl, rfl⟩

/-- C7: the claim says every public mutating operation preserves
0 <= size <= capacity.  On [1, 2, 3] (size 3, capacity 3), `resize(1)`
delegates to `reserve(1)`, which copies all 3 live elements into a fresh
1-slot allocation — an out-of-bounds write (undefined behaviour, none) — and
would record capacity 1 below size 3. -/
theorem invariant_broken_by_resize_bug :
    vector.resize (⟨[1, 2, 3], 3, 3⟩ : vector Nat) 1 = none
    ∧ vector.size (⟨[1, 2, 3], 3, 3⟩ : vector Nat) = 3 :=
  ⟨rfl, rfl⟩

/-- C8: the claim says two containers of different sizes are never equal.
`operator==` uses the three-iterator `std::equal`, comparing only the first
lhs.size() positions: the containers [5] (size 1) and [5, 6] (size 2) compare
equal. -/
theorem equal_ignores_size_bug :
    vector.equalOp (⟨[5], 1, 1⟩ : vector Nat) (⟨[5, 6], 2, 2⟩ : vector Nat) = some true
    ∧ vector.size (⟨[5], 1, 1⟩ : vector Nat) = 1
    ∧ vector.size (⟨[5, 6], 2, 2⟩ : vector Nat) = 2 :=
  ⟨rfl, rfl, rfl⟩

/-- C9: for every container, `clear()` sets size to 0 (so `empty()` is true
afterwards) while the capacity member and the allocation are left exactly as
they were — no reallocation occurs. -/
theorem clear_spec_holds (α : Type) (v : vector α) :
    (vector.clear v).m_vec_size = 0
    ∧ vector.empty (vector.clear v) = true
    ∧ vector.capacity (vector.clear v) = vector.capacity v
    ∧ (vector.clear v).m_buffer = v.m_buffer := by
  by_cases h : v.m_vec_size = 0 <;>
    simp [vector.clear, vector.empty, vector.capacity, h]

/-- C10: after `assign` with an initializer sequence l of length k, the
container is exactly ⟨l, k, k⟩: size k, capacity k, and slot i holds the i-th
given value — independently of the previous buffer, size and capacity. -/
theorem assign_spec_holds (α : Type) [Inhabited α] (v : vector α) (l : List α) :
    vector.assign v l = some ⟨l, l.length, l.length⟩ := by
  simp [vector.assign, stdCopy]

/-- Concrete instance of `clear_spec_holds` on the container [3] (size 1,
capacity 1). -/
theorem clear_spec_holds_witness :
    (vector.clear (⟨[3], 1, 1⟩ : vector Nat)).m_vec_size = 0
    ∧ vector.empty (vector.clear (⟨[3], 1, 1⟩ : vector Nat)) = true
    ∧ vector.capacity (vector.clear (⟨[3], 1, 1⟩ : vector Nat))
        = vector.capacity (⟨[3], 1, 1⟩ : vector Nat)
    ∧ (vector.clear (⟨[3], 1, 1⟩ : vector Nat)).m_buffer
        = (⟨[3], 1, 1⟩ : vector Nat).m_buffer :=
  clear_spec_holds Nat ⟨[3], 1, 1⟩

/-- Concrete instance of `assign_spec_holds`: assigning [4, 5] over a default
container. -/
theorem assign_spec_holds_witness :
    vector.assign (⟨[], 0, 0⟩ : vector Nat) [4, 5] = some ⟨[4, 5], 2, 2⟩ :=
  assign_spec_holds Nat ⟨[], 0, 0⟩ [4, 5]
